import Mathlib

/-!
Shallow embedding of the LungFung internal-member SSO package
(package `lungfung_sso`): permission qualification and aggregation
(permissions.py), the authorization gate (`check_permission` and
`SSOPermission.has_permission`), the cache facade (cache.py), the user
model (models.py) and the remote token-verification branch of the
identity resolver (authentication.py).

Modelling conventions: Python dictionaries coming from JSON are modelled
with `Option` fields (a `none` field models a missing key, so that a
subscript access can raise `KeyError`), fallible code returns `Except`,
Python sets of strings are modelled as `Finset String`, and functions
that may issue a remote HTTP call additionally return a `Bool` recording
whether the call was issued.
-/

/-- Python runtime errors that the modelled code can raise. -/
inductive PyErr where
  | nameError
  | keyError
  deriving DecidableEq, Repr

/-- Equality on `Except` values is decidable when both components are. -/
instance {ε α : Type} [DecidableEq ε] [DecidableEq α] : DecidableEq (Except ε α) := fun x y =>
  match x, y with
  | .ok a, .ok b =>
    if h : a = b then isTrue (by rw [h]) else isFalse (by intro he; cases he; exact h rfl)
  | .error a, .error b =>
    if h : a = b then isTrue (by rw [h]) else isFalse (by intro he; cases he; exact h rfl)
  | .ok _, .error _ => isFalse (by intro h; cases h)
  | .error _, .ok _ => isFalse (by intro h; cases h)

/-- Boolean test that `pat` occurs as a contiguous run inside the second
list; models the Python `in` operator on strings. -/
def hasSubList (pat : List Char) : List Char → Bool
  | [] => pat.isEmpty
  | c :: rest => pat.isPrefixOf (c :: rest) || hasSubList pat rest

/-- Models Python `pat in s` for strings. -/
def strContains (s pat : String) : Bool := hasSubList pat.data s.data

/-- Models Python `s.endswith(pat)`. -/
def strEndsWith (s pat : String) : Bool := pat.data.isSuffixOf s.data

/-- Static configuration read from Django settings by permissions.py:
`SSO_MODULES.PARENT_MODULE`, the `SSO_MODULES.CHILD_MODULES` dict,
the `SSO_PERMISSIONS.PARENT_PERMISSIONS` dict and the
`SSO_PERMISSIONS.CHILD_PERMISSION_TYPES` dict.  Python dicts are
modelled as association lists of key-value pairs. -/
structure SSOConfig where
  parentModule : String
  childModules : List (String × String)
  parentPermissions : List (String × String)
  childPermissionTypes : List (String × String)
  deriving DecidableEq

/-- Models `Module.get_child_modules` (permissions.py lines 59-63):
the values of the CHILD_MODULES dict. -/
def get_child_modules (cfg : SSOConfig) : List String :=
  cfg.childModules.map (·.2)

/-- Models `parent_perms.get('MANAGE_SYSTEM', 'manage_default_system')`
applied to `Permission.get_parent_permissions` (permissions.py lines
74-80 and 225-228). -/
def manage_system_name (cfg : SSOConfig) : String :=
  (cfg.parentPermissions.lookup "MANAGE_SYSTEM").getD "manage_default_system"

/-- Models `parent_perms.get('VIEW_SYSTEM', 'view_default_system')`
(permissions.py line 229). -/
def view_system_name (cfg : SSOConfig) : String :=
  (cfg.parentPermissions.lookup "VIEW_SYSTEM").getD "view_default_system"

/-- Models `Permission.get_child_permission_types().values()`
(permissions.py line 237). -/
def child_permission_type_values (cfg : SSOConfig) : List String :=
  cfg.childPermissionTypes.map (·.2)

/-- Models `Permission.get_child_permission_types().get('VIEW', 'view')`
(permissions.py line 246). -/
def view_permission_type (cfg : SSOConfig) : String :=
  (cfg.childPermissionTypes.lookup "VIEW").getD "view"

/-- Models `Permission.format_permission` (permissions.py lines 92-109):
the parent module returns the action unchanged; a child action that
already embeds the module code (by the suffix or substring test) is
qualified only by the module; otherwise the module code is appended to
the action as well. -/
def format_permission (cfg : SSOConfig) (module action : String) : String :=
  if module = cfg.parentModule then action
  else if strEndsWith action ("_" ++ module) || strContains action ("_" ++ module ++ "_") then
    module ++ "." ++ action
  else
    module ++ "." ++ action ++ "_" ++ module

/-- Models the producer-side qualification of an explicitly listed child
permission, permissions.py line 263:
`perm_code = f"{module_code}.{perm['codename']}"`. -/
def producerQualify (moduleCode codename : String) : String :=
  moduleCode ++ "." ++ codename

/-- One entry of the raw remote permission payload: a JSON object with a
`code` key (missing key modelled as `none`) and a list of permission
objects, each contributing its `codename` (again `none` when the key is
missing).  The list itself models `module_data.get('permissions', [])`,
which defaults to the empty list and never raises. -/
structure ModuleEntry where
  code : Option String
  permissions : List (Option String)
  deriving DecidableEq

/-- The list stored under the payload key `permissions`, as produced by
`permissions_data.get('permissions', [])`. -/
abbrev RawPayload := List ModuleEntry

/-- Evaluates `{perm['codename'] for perm in entry}` left to right:
the first permission object without a `codename` key raises KeyError. -/
def extractCodenames : List (Option String) → Except PyErr (List String)
  | [] => .ok []
  | none :: _ => .error .keyError
  | some c :: rest =>
    match extractCodenames rest with
    | .error e => .error e
    | .ok cs => .ok (c :: cs)

/-- Models the loop of `SSOPermission._get_parent_module_permissions`
(permissions.py lines 200-204): scan entries in order, reading
`module_data['code']` of each (KeyError when missing), and stop at the
first entry whose code equals the parent module. -/
def lookupParentEntry (parent : String) : RawPayload → Except PyErr (Option ModuleEntry)
  | [] => .ok none
  | e :: rest =>
    match e.code with
    | none => .error .keyError
    | some c => if c = parent then .ok (some e) else lookupParentEntry parent rest

/-- Models `SSOPermission._get_parent_module_permissions` (permissions.py
lines 192-209): the codename set of the first parent-module entry, or the
empty set when no entry matches. -/
def get_parent_module_permissionsE (cfg : SSOConfig) (payload : RawPayload) :
    Except PyErr (Finset String) :=
  match lookupParentEntry cfg.parentModule payload with
  | .error e => .error e
  | .ok none => .ok ∅
  | .ok (some e) =>
    match extractCodenames e.permissions with
    | .error er => .error er
    | .ok cs => .ok cs.toFinset

/-- The full grant synthesized when the manage-system permission is
present (permissions.py lines 234-241): every child module crossed with
every child permission type, each formatted by `format_permission`. -/
def manage_grant (cfg : SSOConfig) : Finset String :=
  ((get_child_modules cfg).flatMap
    (fun m => (child_permission_type_values cfg).map (format_permission cfg m))).toFinset

/-- The view grant synthesized when the view-system permission is present
(permissions.py lines 244-251). -/
def view_grant (cfg : SSOConfig) : Finset String :=
  ((get_child_modules cfg).map
    (fun m => format_permission cfg m (view_permission_type cfg))).toFinset

/-- Models the child-entry loop of
`SSOPermission._collect_module_permissions` (permissions.py lines
253-265): every entry has its `code` read (KeyError when missing),
parent-module entries are skipped, and each codename of the remaining
entries is added as the raw string `module_code ++ "." ++ codename`. -/
def collect_child_permissions (cfg : SSOConfig) : RawPayload → Except PyErr (Finset String)
  | [] => .ok ∅
  | e :: rest =>
    match e.code with
    | none => .error .keyError
    | some code =>
      if code = cfg.parentModule then collect_child_permissions cfg rest
      else
        match extractCodenames e.permissions with
        | .error er => .error er
        | .ok cs =>
          match collect_child_permissions cfg rest with
          | .error er => .error er
          | .ok s => .ok ((cs.map (producerQualify code)).toFinset ∪ s)

/-- Models `SSOPermission._collect_module_permissions` (permissions.py
lines 211-268).  The parent-module codenames are collected first; when
the manage-system codename is among them the full grant is returned at
once, without the child-entry loop; when the view-system codename is
among them the view grant is added and the child loop still runs. -/
def collect_module_permissionsE (cfg : SSOConfig) (payload : RawPayload) :
    Except PyErr (Finset String) :=
  match get_parent_module_permissionsE cfg payload with
  | .error e => .error e
  | .ok parentPerms =>
    if manage_system_name cfg ∈ parentPerms then
      .ok (parentPerms ∪ manage_grant cfg)
    else
      let base :=
        if view_system_name cfg ∈ parentPerms then parentPerms ∪ view_grant cfg
        else parentPerms
      match collect_child_permissions cfg payload with
      | .error e => .error e
      | .ok childPerms => .ok (base ∪ childPerms)

/-- Default configuration built from the documented setting defaults:
parent module SYS, child modules A and B, default parent permission
names and default child permission types. -/
def cfgAB : SSOConfig :=
  { parentModule := "SYS"
  , childModules := [("A", "A"), ("B", "B")]
  , parentPermissions :=
      [("VIEW_SYSTEM", "view_default_system"), ("MANAGE_SYSTEM", "manage_default_system")]
  , childPermissionTypes :=
      [("VIEW", "view"), ("ADD", "add"), ("CHANGE", "change"), ("DELETE", "delete")] }

/-- Backing store of the Django cache, modelled as an association list
from cache keys to stored permission payloads.  `none` at the outer
level models `_get_cache()` returning the fallback `MockCache`
(cache.py lines 25-53), whose `set` and `delete` are no-ops and whose
`get` always returns the default. -/
abbrev CacheStore := Option (List (String × RawPayload))

/-- Models `get_cache_key` (cache.py lines 68-79) with the default
CACHE_KEY_PREFIX value `sso_`. -/
def get_cache_key (keyType identifier : String) : String :=
  "sso_" ++ keyType ++ "_" ++ identifier

/-- String form of the user id interpolated into the cache key; a
missing id would be interpolated by Python as the text `None`. -/
def idText : Option Nat → String
  | some n => toString n
  | none => "None"

/-- Models `get_permissions_cache_key` (cache.py lines 93-103) with the
default CACHE_TYPE_PERMISSIONS value `permissions`. -/
def get_permissions_cache_key (userId : Option Nat) : String :=
  get_cache_key "permissions" (idText userId)

/-- Models `set_user_permissions_cache` (cache.py lines 225-246): writes
through to the backing store (a no-op on the MockCache fallback) and
returns `true`.  The store write cannot raise in this model; the Python
wrapper would catch such an error and return `false`. -/
def set_user_permissions_cacheS (store : CacheStore) (userId : Option Nat)
    (data : RawPayload) (timeout : Option Nat) : CacheStore × Bool :=
  let _ttl := timeout.getD 300
  match store with
  | none => (none, true)
  | some s => (some ((get_permissions_cache_key userId, data) :: s), true)

/-- Models `get_user_permissions_cache` (cache.py lines 248-268).  Line
259 reads the backing store, but line 261 then evaluates
`getattr(settings, 'SSO_LOGGING_LEVEL', 'DEBUG' if settings.DEBUG else 'INFO')`
and cache.py never imports the name `settings`, so every call raises
NameError before the looked-up value can be returned. -/
def get_user_permissions_cacheE (store : CacheStore) (userId : Option Nat) :
    Except PyErr (Option RawPayload) :=
  let _looked_up :=
    match store with
    | none => (none : Option RawPayload)
    | some s => s.lookup (get_permissions_cache_key userId)
  .error .nameError

/-- Models the permissions-key deletion performed by
`invalidate_user_cache` (cache.py lines 270-289). -/
def invalidate_user_permissions_cacheS (store : CacheStore) (userId : Option Nat) : CacheStore :=
  match store with
  | none => none
  | some s => some (s.filter (fun kv => kv.1 != get_permissions_cache_key userId))

/-- The user object of models.py, restricted to the attributes that any
authentication or permission code path reads, plus the identity fields.
A `none` token models a user object without a token attribute. -/
structure SSOUser where
  id : Option Nat
  username : String
  email : String
  first_name : String
  last_name : String
  is_active : Bool
  is_staff : Bool
  is_superuser : Bool
  is_authenticated : Bool
  token : Option String
  deriving DecidableEq

/-- The nested profile sub-object of a remote verification response. -/
structure ProfileData where
  email : Option String
  first_name : Option String
  last_name : Option String
  deriving DecidableEq

/-- The JSON body of a successful remote verification response; `none`
fields model missing keys. -/
structure UserData where
  id : Option Nat
  username : Option String
  email : Option String
  first_name : Option String
  last_name : Option String
  is_active : Option Bool
  is_staff : Option Bool
  is_superuser : Option Bool
  token : Option String
  profile : Option ProfileData
  deriving DecidableEq

/-- Python `a or b` for an optional string `a`: the value of `a` when it
is present and non-empty, else `b`. -/
def pyOrStr (a : Option String) (b : String) : String :=
  match a with
  | some s => if s = "" then b else s
  | none => b

/-- Models `User.__init__` (models.py lines 28-83) on the fields that
feed authorization decisions, plus the merged contact fields.  The
display-only attributes (display_name, avatar_url, department, position,
staff_no, phone_number, full_name) are omitted: no permission or
authentication code path reads them.  Line 78 sets `is_authenticated`
to `True` unconditionally, and line 51 defaults `is_active` to `True`
when the response omits it. -/
def userFromData (d : UserData) : SSOUser :=
  let profileData := d.profile.getD ⟨none, none, none⟩
  { id := d.id
  , username := d.username.getD ""
  , email := pyOrStr d.email (profileData.email.getD "")
  , first_name := pyOrStr d.first_name (profileData.first_name.getD "")
  , last_name := pyOrStr d.last_name (profileData.last_name.getD "")
  , is_active := d.is_active.getD true
  , is_staff := d.is_staff.getD false
  , is_superuser := d.is_superuser.getD false
  , is_authenticated := true
  , token := some (d.token.getD "") }

/-- Outcome of the remote user-permissions fetch issued by
`SSOPermission._get_user_permissions` (permissions.py lines 164-190):
a 200 response with its JSON body (`success none` models a falsy body,
`success (some p)` a truthy dict whose permissions key holds `p`), a
non-200 response, or a raised requests exception. -/
inductive RemoteOutcome where
  | success (data : Option RawPayload)
  | httpError
  | exn
  deriving DecidableEq

/-- The shared mutable environment a permission check runs against: the
cache backing store and the behavior of the remote endpoint. -/
structure PermEnv where
  store : CacheStore
  remote : RemoteOutcome
  deriving DecidableEq

/-- The request object seen by the permission classes: its user (Django
sets it to an anonymous object, but middleware can leave it `none`), the
Authorization header, and the auth_access_token cookie (`none` models an
absent cookie). -/
structure PermRequest where
  user : Option SSOUser
  authHeader : Option String
  cookieToken : Option String
  deriving DecidableEq

/-- Python truthiness of a possibly missing integer id. -/
def idTruthy : Option Nat → Bool
  | none => false
  | some n => n != 0

/-- Python truthiness of a possibly missing token string. -/
def tokenTruthy : Option String → Bool
  | none => false
  | some s => s != ""

/-- Models permissions.py lines 138-144: a header that starts with
`Bearer ` contributes its second space-separated field, any other
non-empty header is used verbatim. -/
def headerToken (h : String) : String :=
  if h.startsWith "Bearer " then (h.splitOn " ").getD 1 "" else h

/-- Models `SSOPermission._get_user_permissions` (permissions.py lines
114-190).  The second component records whether the remote permissions
endpoint was called.  Line 123 calls `get_user_permissions_cache`
outside the try block that starts at line 129, so the NameError raised
inside the cache facade propagates out of this method. -/
def getUserPermissionsE (env : PermEnv) (req : PermRequest) :
    (Except PyErr (Option RawPayload)) × Bool :=
  if ¬ idTruthy (req.user.bind (·.id)) then (.ok none, false)
  else
    match get_user_permissions_cacheE env.store (req.user.bind (·.id)) with
    | .error e => (.error e, false)
    | .ok (some d) => (.ok (some d), false)
    | .ok none =>
      let userToken := req.user.bind (·.token)
      let auth_token : Option String :=
        if tokenTruthy userToken then userToken
        else
          match req.authHeader with
          | some h => if h ≠ "" then some (headerToken h) else req.cookieToken
          | none => req.cookieToken
      match auth_token with
      | none => (.ok none, false)
      | some t =>
        if t = "" then (.ok none, false)
        else
          match env.remote with
          | .success d => (.ok d, true)
          | .httpError => (.ok none, true)
          | .exn => (.ok none, true)

/-- Models `SSOPermission.has_permission` (permissions.py lines
270-302).  Nothing in this method catches exceptions escaping from the
helpers it calls, so the result is an `Except`; the flag records a
remote call. -/
def has_permissionE (cfg : SSOConfig) (env : PermEnv) (req : PermRequest)
    (required : List String) : (Except PyErr Bool) × Bool :=
  match req.user with
  | none => (.ok false, false)
  | some u =>
    if ¬ u.is_authenticated then (.ok false, false)
    else if u.is_superuser then (.ok true, false)
    else if required.isEmpty then (.ok true, false)
    else
      match getUserPermissionsE env req with
      | (.error e, rc) => (.error e, rc)
      | (.ok none, rc) => (.ok false, rc)
      | (.ok (some pd), rc) =>
        match collect_module_permissionsE cfg pd with
        | .error e => (.error e, rc)
        | .ok allPerms => (.ok (required.all (fun p => decide (p ∈ allPerms))), rc)

/-- Models the module-level function `check_permission` (permissions.py
lines 317-384).  The body from line 340 on sits inside a try block whose
handler returns `False`, so errors raised there never escape; the flag
records a remote call.  The `permissions` argument is taken as a list
(line 337 wraps a lone string into a one-element list). -/
def check_permissionE (cfg : SSOConfig) (env : PermEnv) (user : Option SSOUser)
    (module : String) (permissions : List String) : (Except PyErr Bool) × Bool :=
  match user with
  | none => (.ok false, false)
  | some u =>
    if ¬ u.is_authenticated then (.ok false, false)
    else if u.is_superuser then (.ok true, false)
    else
      let checkAll (pd : RawPayload) : Except PyErr Bool :=
        match collect_module_permissionsE cfg pd with
        | .error e => .error e
        | .ok allPerms =>
          .ok (permissions.all (fun p => decide (format_permission cfg module p ∈ allPerms)))
      let body : (Except PyErr Bool) × Bool :=
        match get_user_permissions_cacheE env.store u.id with
        | .error e => (.error e, false)
        | .ok (some pd) => (checkAll pd, false)
        | .ok none =>
          let mockReq : PermRequest :=
            ⟨some u, none, if tokenTruthy u.token then u.token else none⟩
          match getUserPermissionsE env mockReq with
          | (.error e, rc) => (.error e, rc)
          | (.ok none, rc) => (.ok false, rc)
          | (.ok (some pd), rc) => (checkAll pd, rc)
      match body with
      | (.error _, rc) => (.ok false, rc)
      | (.ok b, rc) => (.ok b, rc)

/-- Error taxonomy of exceptions.py restricted to the classes relevant
to token resolution, including `SSOServiceUnavailableError`, which
exceptions.py defines (lines 58-68) but which no code path raises.
`TokenExpiredError` subclasses `TokenError` in Python; the predicate
`SSOErr.isTokenError` models that subclass relation. -/
inductive SSOErr where
  | tokenError (msg : String)
  | tokenExpiredError (msg : String)
  | serviceUnavailableError (msg : String)
  deriving DecidableEq

/-- Membership in the Python class `TokenError`, including the
`TokenExpiredError` subclass. -/
def SSOErr.isTokenError : SSOErr → Bool
  | .tokenError _ => true
  | .tokenExpiredError _ => true
  | .serviceUnavailableError _ => false

/-- Membership in the Python class `SSOServiceUnavailableError`. -/
def SSOErr.isServiceUnavailable : SSOErr → Bool
  | .serviceUnavailableError _ => true
  | _ => false

/-- Outcome of the remote verify call at authentication.py lines
121-126: a parsed 200 body, a 401 body carrying its `code` field, any
other HTTP status with its response text, or a raised
`requests.RequestException` with its message. -/
inductive VerifyOutcome where
  | ok (userData : UserData)
  | unauthorized (code : Option String)
  | otherStatus (statusCode : Nat) (text : String)
  | transportError (msg : String)
  deriving DecidableEq

/-- Models the remote-verification branch of
`SSOAuthentication._get_user_from_token` (authentication.py lines
119-155), the code entered when the token-cache lookup yields no user:
a 200 response builds the `User` object (and caches it), a 401 response
raises `TokenExpiredError` exactly when its body code is
`token_expired` and a plain `TokenError` otherwise, any other status
raises `TokenError`, and a transport-level `requests.RequestException`
is caught at line 153 and re-raised as a `TokenError` (not as an
`SSOServiceUnavailableError`). -/
def verifyTokenRemote (out : VerifyOutcome) : Except SSOErr SSOUser :=
  match out with
  | .ok d => .ok (userFromData d)
  | .unauthorized code =>
    if code = some "token_expired" then .error (.tokenExpiredError "認證令牌已過期")
    else .error (.tokenError "無效的認證令牌")
  | .otherStatus _ text => .error (.tokenError ("令牌驗證失敗: " ++ text))
  | .transportError msg => .error (.tokenError ("無法連接 SSO 服務: " ++ msg))

/-- Models `get_token_verification_cache` (cache.py lines 203-223):
line 216 references the unimported name `settings`, so every call
raises NameError, exactly like the permissions variant. -/
def get_token_verification_cacheE (store : Option (List (String × SSOUser)))
    (tokenValue : String) : Except PyErr (Option SSOUser) :=
  let _looked_up :=
    match store with
    | none => (none : Option SSOUser)
    | some s => s.lookup (get_cache_key "token" tokenValue)
  .error .nameError

/-- Boolean test that an exception value is the service-unavailable
class; applied to a resolver outcome below. -/
def raisesServiceUnavailable : Except SSOErr SSOUser → Bool
  | .error e => e.isServiceUnavailable
  | .ok _ => false

/-- Boolean test that a gate outcome is a returned boolean rather than a
propagated exception. -/
def isOkResult : Except PyErr Bool → Bool
  | .ok _ => true
  | .error _ => false

/-- The single payload entry of the full-grant scenario: module SYS with
the lone codename manage_default_system. -/
def sysManageEntry : ModuleEntry := ⟨some "SYS", [some "manage_default_system"]⟩

/-- The effective set the code computes for the full-grant scenario. -/
def c3ResultSet : Finset String :=
  {"manage_default_system", "A.view_A", "A.add_A", "A.change_A", "A.delete_A",
   "B.view_B", "B.add_B", "B.change_B", "B.delete_B"}

/-- An authenticated superuser identity. -/
def superUserFix : SSOUser :=
  { id := some 1, username := "root", email := "", first_name := "", last_name := ""
  , is_active := true, is_staff := false, is_superuser := true
  , is_authenticated := true, token := none }

/-- An authenticated regular identity with an id but no token attribute. -/
def plainUserNoToken : SSOUser :=
  { id := some 7, username := "alice", email := "", first_name := "", last_name := ""
  , is_active := true, is_staff := false, is_superuser := false
  , is_authenticated := true, token := none }

/-- Well-formed payloads: every entry carries a module code and every
permission object carries a codename. -/
abbrev WFPayload := List (String × List String)

/-- Raw form of a well-formed entry. -/
def wfEntry (e : String × List String) : ModuleEntry := ⟨some e.1, e.2.map some⟩

/-- Raw form of a well-formed payload. -/
def toRaw (p : WFPayload) : RawPayload := p.map wfEntry

/-- Spec-side description of the parent permission set: the codenames of
the first entry whose code is the parent module. -/
def specParentPerms (cfg : SSOConfig) (p : WFPayload) : Finset String :=
  match p.find? (fun e => e.1 == cfg.parentModule) with
  | some e => e.2.toFinset
  | none => ∅

/-- Spec-side list of the qualified child permissions explicitly listed
in the payload, in payload order. -/
def specChildStrings (cfg : SSOConfig) (p : WFPayload) : List String :=
  p.flatMap (fun e => if e.1 = cfg.parentModule then [] else e.2.map (producerQualify e.1))

/-- Spec-side set of the qualified child permissions. -/
def specChildPerms (cfg : SSOConfig) (p : WFPayload) : Finset String :=
  (specChildStrings cfg p).toFinset

/-- Every string the aggregator can contribute for this payload, in
payload order: raw codenames for parent entries, qualified codenames for
child entries. -/
def specAllStrings (cfg : SSOConfig) (p : WFPayload) : List String :=
  p.flatMap (fun e => if e.1 = cfg.parentModule then e.2 else e.2.map (producerQualify e.1))

/-- Total number of codenames listed across all modules of a payload. -/
def totalCodenames (p : WFPayload) : Nat := (p.map (fun e => e.2.length)).sum

lemma extractCodenames_map_some (cs : List String) :
    extractCodenames (cs.map some) = .ok cs := by
  induction cs with
  | nil => rfl
  | cons c rest ih => simp [extractCodenames, ih]

lemma lookupParentEntry_toRaw (cfg : SSOConfig) (p : WFPayload) :
    lookupParentEntry cfg.parentModule (toRaw p) =
      .ok ((p.find? (fun e => e.1 == cfg.parentModule)).map wfEntry) := by
  induction p with
  | nil => rfl
  | cons e rest ih =>
    simp only [toRaw, List.map_cons, lookupParentEntry, wfEntry]
    by_cases h : e.1 = cfg.parentModule
    · rw [if_pos h, List.find?_cons_of_pos _ (by simpa using h)]
      rfl
    · rw [if_neg h, List.find?_cons_of_neg _ (by simpa using h)]
      simpa [toRaw] using ih

lemma get_parent_toRaw (cfg : SSOConfig) (p : WFPayload) :
    get_parent_module_permissionsE cfg (toRaw p) = .ok (specParentPerms cfg p) := by
  unfold get_parent_module_permissionsE specParentPerms
  rw [lookupParentEntry_toRaw]
  cases hf : p.find? (fun e => e.1 == cfg.parentModule) with
  | none => rfl
  | some e => simp [wfEntry, extractCodenames_map_some]

lemma specChildStrings_cons (cfg : SSOConfig) (e : String × List String) (rest : WFPayload) :
    specChildStrings cfg (e :: rest) =
      (if e.1 = cfg.parentModule then [] else e.2.map (producerQualify e.1)) ++
        specChildStrings cfg rest := by
  simp [specChildStrings]

lemma specAllStrings_cons (cfg : SSOConfig) (e : String × List String) (rest : WFPayload) :
    specAllStrings cfg (e :: rest) =
      (if e.1 = cfg.parentModule then e.2 else e.2.map (producerQualify e.1)) ++
        specAllStrings cfg rest := by
  simp [specAllStrings]

lemma collect_child_toRaw (cfg : SSOConfig) (p : WFPayload) :
    collect_child_permissions cfg (toRaw p) = .ok (specChildPerms cfg p) := by
  induction p with
  | nil => rfl
  | cons e rest ih =>
    by_cases h : e.1 = cfg.parentModule
    · simpa [toRaw, collect_child_permissions, wfEntry, h, specChildPerms,
        specChildStrings_cons] using ih
    · have ih2 : collect_child_permissions cfg (List.map wfEntry rest) =
          Except.ok (specChildPerms cfg rest) := ih
      simp [toRaw, collect_child_permissions, wfEntry, h, extractCodenames_map_some,
        specChildPerms, specChildStrings_cons, List.toFinset_append, ih2]

lemma specChildStrings_subset (cfg : SSOConfig) (p : WFPayload) :
    ∀ x ∈ specChildStrings cfg p, x ∈ specAllStrings cfg p := by
  intro x hx
  simp only [specChildStrings, List.mem_flatMap] at hx
  obtain ⟨e, he, hxe⟩ := hx
  simp only [specAllStrings, List.mem_flatMap]
  refine ⟨e, he, ?_⟩
  by_cases h : e.1 = cfg.parentModule
  · rw [if_pos h] at hxe
    simp at hxe
  · rw [if_neg h] at hxe
    rw [if_neg h]
    exact hxe

lemma specParentPerms_subset (cfg : SSOConfig) (p : WFPayload) :
    ∀ x ∈ specParentPerms cfg p, x ∈ specAllStrings cfg p := by
  intro x hx
  unfold specParentPerms at hx
  cases hf : p.find? (fun e => e.1 == cfg.parentModule) with
  | none =>
    rw [hf] at hx
    simp at hx
  | some e =>
    rw [hf] at hx
    rw [List.mem_toFinset] at hx
    have he := List.mem_of_find?_eq_some hf
    have hcode : e.1 = cfg.parentModule := by simpa using List.find?_some hf
    simp only [specAllStrings, List.mem_flatMap]
    exact ⟨e, he, by rw [if_pos hcode]; exact hx⟩

lemma specAllStrings_length (cfg : SSOConfig) (p : WFPayload) :
    (specAllStrings cfg p).length = totalCodenames p := by
  induction p with
  | nil => rfl
  | cons e rest ih =>
    rw [specAllStrings_cons, List.length_append, ih]
    by_cases h : e.1 = cfg.parentModule
    · rw [if_pos h]
      simp [totalCodenames]
    · rw [if_neg h]
      simp [totalCodenames]

lemma union_subset_allStrings (cfg : SSOConfig) (p : WFPayload) :
    specParentPerms cfg p ∪ specChildPerms cfg p ⊆ (specAllStrings cfg p).toFinset := by
  intro x hx
  rw [Finset.mem_union] at hx
  rw [List.mem_toFinset]
  cases hx with
  | inl hp => exact specParentPerms_subset cfg p x hp
  | inr hcs =>
    exact specChildStrings_subset cfg p x (by simpa [specChildPerms, List.mem_toFinset] using hcs)

lemma allStrings_no_parent (cfg : SSOConfig) :
    ∀ p : WFPayload, (∀ x ∈ p, x.1 ≠ cfg.parentModule) →
      specAllStrings cfg p = specChildStrings cfg p := by
  intro p
  induction p with
  | nil =>
    intro _
    rfl
  | cons e rest ih =>
    intro h
    have he : e.1 ≠ cfg.parentModule := h e (List.mem_cons_self e rest)
    have hr := ih (fun x hx => h x (List.mem_cons_of_mem e hx))
    rw [specAllStrings_cons, if_neg he, specChildStrings_cons, if_neg he, hr]

lemma parentPerms_empty (cfg : SSOConfig) (p : WFPayload)
    (h : ∀ x ∈ p, x.1 ≠ cfg.parentModule) : specParentPerms cfg p = ∅ := by
  unfold specParentPerms
  have hn : p.find? (fun e => e.1 == cfg.parentModule) = none :=
    List.find?_eq_none.mpr (fun x hx => by simpa using h x hx)
  rw [hn]

lemma union_eq_allStrings (cfg : SSOConfig) (p : WFPayload)
    (hc : p.countP (fun e => e.1 == cfg.parentModule) ≤ 1) :
    specParentPerms cfg p ∪ specChildPerms cfg p = (specAllStrings cfg p).toFinset := by
  induction p with
  | nil => simp [specParentPerms, specChildPerms, specChildStrings, specAllStrings]
  | cons e rest ih =>
    by_cases h : e.1 = cfg.parentModule
    · have hzero : rest.countP (fun x => x.1 == cfg.parentModule) = 0 := by
        rw [List.countP_cons] at hc
        have hif : (if (fun x => x.1 == cfg.parentModule) e then 1 else 0) = 1 := by simp [h]
        rw [hif] at hc
        omega
      have hnone : ∀ x ∈ rest, x.1 ≠ cfg.parentModule := by
        intro x hx
        simpa using List.countP_eq_zero.mp hzero x hx
      have hp : specParentPerms cfg (e :: rest) = e.2.toFinset := by
        unfold specParentPerms
        rw [List.find?_cons_of_pos _ (by simpa using h)]
      have hcs : specChildPerms cfg (e :: rest) = specChildPerms cfg rest := by
        simp [specChildPerms, specChildStrings_cons, h]
      rw [hp, hcs, specAllStrings_cons, if_pos h, List.toFinset_append,
        allStrings_no_parent cfg rest hnone]
      rfl
    · have hc2 : rest.countP (fun x => x.1 == cfg.parentModule) ≤ 1 := by
        rw [List.countP_cons] at hc
        have hif : (if (fun x => x.1 == cfg.parentModule) e then 1 else 0) = 0 := by simp [h]
        rw [hif] at hc
        omega
      have hp : specParentPerms cfg (e :: rest) = specParentPerms cfg rest := by
        unfold specParentPerms
        rw [List.find?_cons_of_neg _ (by simpa using h)]
      have hcs : specChildPerms cfg (e :: rest) =
          (e.2.map (producerQualify e.1)).toFinset ∪ specChildPerms cfg rest := by
        simp [specChildPerms, specChildStrings_cons, h, List.toFinset_append]
      rw [hp, hcs, specAllStrings_cons, if_neg h, List.toFinset_append, ← ih hc2,
        Finset.union_left_comm]

/-- C1 counterexample: for child module A and the basic codename view,
the producer side qualifies to A.view, while the consumer side
(`format_permission`) yields A.view_A, so the two sides disagree and
neither claim conjunct survives: the consumer does not yield the string
m.codename. -/
theorem c1_counterexample :
    producerQualify "A" "view" = "A.view" ∧
    format_permission cfgAB "A" "view" ≠ "A.view" ∧
    producerQualify "A" "view" ≠ format_permission cfgAB "A" "view" := by decide

/-- C1 amended: qualification is a pure deterministic function of the
claimed inputs, and for a child module m the producer string
m.codename agrees with the consumer string `format_permission m codename`
exactly when the codename already embeds the module code (ends with _m
or contains _m_); for a basic codename the consumer instead produces
m.codename_m. -/
theorem c1_amended (cfg : SSOConfig) (m c : String) (hm : m ≠ cfg.parentModule) :
    producerQualify m c = format_permission cfg m c ↔
      (strEndsWith c ("_" ++ m) || strContains c ("_" ++ m ++ "_")) = true := by
  unfold format_permission producerQualify
  rw [if_neg hm]
  by_cases h : (strEndsWith c ("_" ++ m) || strContains c ("_" ++ m ++ "_")) = true
  · rw [if_pos h]
    simp [h]
  · rw [if_neg h]
    simp only [h, Bool.false_eq_true, iff_false]
    intro he
    have hl := congrArg String.length he
    have h1 : ("_" : String).length = 1 := rfl
    simp only [String.length_append, h1] at hl
    omega

/-- C1 amended witness at the concrete input of the counterexample
configuration: module A, codename view. -/
theorem c1_amended_witness :
    ("A" : String) ≠ cfgAB.parentModule ∧
    (producerQualify "A" "view" = format_permission cfgAB "A" "view" ↔
      (strEndsWith "view" ("_" ++ "A") || strContains "view" ("_" ++ "A" ++ "_")) = true) :=
  ⟨by decide, c1_amended cfgAB "A" "view" (by decide)⟩

/-- C3 counterexample: on the scenario payload the aggregator does
return a set of size nine, but the eight synthesized child permissions
are A.view_A, A.add_A, ..., B.delete_B; the claimed members A.view and
B.delete are not in the result. -/
theorem c3_counterexample :
    collect_module_permissionsE cfgAB [sysManageEntry] = .ok c3ResultSet ∧
    "A.view" ∉ c3ResultSet ∧ "B.delete" ∉ c3ResultSet := by decide

/-- C3 amended: for the scenario payload the aggregator returns the set
of size nine made of manage_default_system plus the eight doubled-form
child permissions A.view_A ... B.delete_B, and it does so for every
continuation of the payload after the SYS entry: further child entries
are never scanned (even entries that would raise KeyError are ignored),
modelling the immediate return of the full-grant branch. -/
theorem c3_amended (rest : RawPayload) :
    collect_module_permissionsE cfgAB (sysManageEntry :: rest) = .ok c3ResultSet ∧
    c3ResultSet.card = 9 := by
  refine ⟨?_, by decide⟩
  have hsplit : collect_module_permissionsE cfgAB (sysManageEntry :: rest) =
      collect_module_permissionsE cfgAB [sysManageEntry] := rfl
  rw [hsplit]
  decide

/-- C4 counterexample: an identity with is_superuser true but
is_authenticated false is denied, because the gate tests authentication
before the superuser bypass; the claim promised true regardless of the
other identity attributes. -/
theorem c4_counterexample :
    check_permissionE cfgAB ⟨some [], .success (some [])⟩
      (some { superUserFix with is_authenticated := false }) "A" ["view"] =
      (.ok false, false) := by decide

/-- C4 amended: for every authenticated identity with is_superuser
true, the gate returns true with no remote call, for every module, every
requested permission list, every cache store and every remote
behavior. -/
theorem c4_amended (cfg : SSOConfig) (env : PermEnv) (u : SSOUser) (module : String)
    (permissions : List String) (hauth : u.is_authenticated = true)
    (hsup : u.is_superuser = true) :
    check_permissionE cfg env (some u) module permissions = (.ok true, false) := by
  simp [check_permissionE, hauth, hsup]

/-- C4 amended witness: the concrete authenticated superuser is allowed
with no remote call under an arbitrary concrete environment. -/
theorem c4_amended_witness :
    check_permissionE cfgAB ⟨some [], .exn⟩ (some superUserFix) "A" ["view", "add"] =
      (.ok true, false) :=
  c4_amended cfgAB ⟨some [], .exn⟩ superUserFix "A" ["view", "add"] rfl rfl

/-- C5 counterexample: a transport-level failure of the verify call is
re-raised as a plain TokenError (which is not a service-unavailable
error), not as the SSOServiceUnavailableError the claim names. -/
theorem c5_counterexample :
    verifyTokenRemote (.transportError "timeout") =
      .error (.tokenError "無法連接 SSO 服務: timeout") ∧
    (SSOErr.tokenError "無法連接 SSO 服務: timeout").isServiceUnavailable = false ∧
    (SSOErr.tokenError "無法連接 SSO 服務: timeout").isTokenError = true := by decide

/-- C5 amended: a transport failure makes the resolver raise TokenError
with the connection-error message, and no outcome whatsoever of the
verify call makes it raise SSOServiceUnavailableError, which the
package defines but never raises. -/
theorem c5_amended :
    (∀ msg, verifyTokenRemote (.transportError msg) =
      .error (.tokenError ("無法連接 SSO 服務: " ++ msg))) ∧
    ∀ out, raisesServiceUnavailable (verifyTokenRemote out) = false := by
  refine ⟨fun msg => rfl, fun out => ?_⟩
  cases out with
  | ok d => rfl
  | unauthorized c =>
    by_cases h : c = some "token_expired"
    · simp [verifyTokenRemote, raisesServiceUnavailable, h, SSOErr.isServiceUnavailable]
    · simp [verifyTokenRemote, raisesServiceUnavailable, h, SSOErr.isServiceUnavailable]
  | otherStatus s t => rfl
  | transportError m => rfl

/-- C6: a 401 verify response whose body code is token_expired makes the
resolver raise TokenExpiredError, and a 401 response with any other code
makes it raise the plain TokenError. -/
theorem c6_theorem :
    verifyTokenRemote (.unauthorized (some "token_expired")) =
      .error (.tokenExpiredError "認證令牌已過期") ∧
    ∀ c : Option String, c ≠ some "token_expired" →
      verifyTokenRemote (.unauthorized c) = .error (.tokenError "無效的認證令牌") := by
  refine ⟨rfl, fun c hc => ?_⟩
  simp only [verifyTokenRemote]
  rw [if_neg hc]

/-- C6 witness: a 401 response with the code invalid_token raises the
plain TokenError. -/
theorem c6_theorem_witness :
    verifyTokenRemote (.unauthorized (some "invalid_token")) =
      .error (.tokenError "無效的認證令牌") :=
  c6_theorem.2 (some "invalid_token") (by decide)

/-- C7 code evaluation: in the no-token scenario (no token attribute, no
Authorization header, no cookie) the check does not return false as the
claim states: `SSOPermission.has_permission` propagates the NameError
raised by `get_user_permissions_cache` (cache.py line 261 reads the
unimported name `settings`) before the three-path token lookup is ever
reached.  No remote call is attempted, but only because the check dies
earlier; this holds for every cache store and every remote behavior. -/
theorem c7_code_eval (store : CacheStore) (remote : RemoteOutcome) :
    has_permissionE cfgAB ⟨store, remote⟩ ⟨some plainUserNoToken, none, none⟩ ["view_x"] =
      (.error .nameError, false) := rfl

/-- C8 counterexample: an authorization-gate check that propagates an
exception instead of resolving to a boolean: a non-superuser
has_permission check raises NameError out of the gate. -/
theorem c8_counterexample :
    (has_permissionE cfgAB ⟨some [⟨get_permissions_cache_key (some 7), [⟨some "A", [some "x"]⟩]⟩],
        .success (some [])⟩
      ⟨some plainUserNoToken, some "Bearer tok", none⟩ ["A.x"]).1 = .error .nameError := rfl

/-- C8 amended: the module-level gate check_permission always resolves
to a boolean for every input, because its body is wrapped in a
catch-all handler that turns any internal exception into false;
SSOPermission.has_permission does not have such a handler and can
propagate an exception (see the counterexample). -/
theorem c8_amended (cfg : SSOConfig) (env : PermEnv) (user : Option SSOUser)
    (module : String) (permissions : List String) :
    isOkResult (check_permissionE cfg env user module permissions).1 = true := by
  cases user with
  | none => rfl
  | some u =>
    unfold check_permissionE
    by_cases hauth : u.is_authenticated
    · by_cases hsup : u.is_superuser
      · simp [hauth, hsup, isOkResult]
      · simp only [hauth, hsup]
        split <;> rfl
    · simp [hauth, isOkResult]

/-- C9 code evaluation: a facade set followed immediately by a get on
the same key does not return the stored value: the get raises NameError
(cache.py line 261 references the unimported name `settings`), both with
a configured backing store and with the MockCache fallback, contradicting
the facade docstring that promises a value or None. -/
theorem c9_code_eval :
    (set_user_permissions_cacheS (some []) (some 1) [⟨some "A", [some "x"]⟩] (some 60)).2 = true ∧
    get_user_permissions_cacheE
      (set_user_permissions_cacheS (some []) (some 1) [⟨some "A", [some "x"]⟩] (some 60)).1
      (some 1) = .error .nameError ∧
    get_user_permissions_cacheE none (some 1) = .error .nameError ∧
    get_user_permissions_cacheE
      (invalidate_user_permissions_cacheS
        (set_user_permissions_cacheS (some []) (some 1) [⟨some "A", [some "x"]⟩] (some 60)).1
        (some 1))
      (some 1) = .error .nameError := by decide

/-- C10: every user object built from a remote verification response has
is_authenticated true unconditionally, in particular also when the
response marks the account inactive, and the authorization gates never
consult is_active: flipping it changes no check_permission and no
has_permission outcome for any configuration, environment or request. -/
theorem c10_theorem :
    (∀ d : UserData, (userFromData d).is_authenticated = true) ∧
    (∀ d : UserData, (userFromData { d with is_active := some false }).is_authenticated = true) ∧
    (∀ (u : SSOUser) (b : Bool) (cfg : SSOConfig) (env : PermEnv) (module : String)
        (permissions : List String),
      check_permissionE cfg env (some { u with is_active := b }) module permissions =
        check_permissionE cfg env (some u) module permissions) ∧
    (∀ (u : SSOUser) (b : Bool) (cfg : SSOConfig) (env : PermEnv)
        (ah ck : Option String) (required : List String),
      has_permissionE cfg env ⟨some { u with is_active := b }, ah, ck⟩ required =
        has_permissionE cfg env ⟨some u, ah, ck⟩ required) := by
  refine ⟨fun d => rfl, fun d => rfl, fun u b cfg env module permissions => ?_,
    fun u b cfg env ah ck required => ?_⟩
  · cases u
    rfl
  · cases u
    rfl

/-- C2 counterexample: with parent module SYS, a payload whose parent
entry lists the plain codename foo and whose child entry A lists x
twice yields the effective set containing foo and A.x: the set is not
exactly the qualified child permissions (foo, a parent codename, is a
member and is not module-qualified), and its cardinality is 2 while the
payload lists 3 codenames in total. -/
theorem c2_counterexample :
    collect_module_permissionsE cfgAB (toRaw [("SYS", ["foo"]), ("A", ["x", "x"])]) =
      .ok ({"foo", "A.x"} : Finset String) ∧
    ({"foo", "A.x"} : Finset String).card = 2 ∧
    totalCodenames [("SYS", ["foo"]), ("A", ["x", "x"])] = 3 ∧
    "foo" ∉ ({"A.x"} : Finset String) := by decide

/-- C2 amended: when the parent-module codenames contain neither the
manage-system nor the view-system name, the effective set is exactly
the unqualified codenames of the first parent entry together with the
qualified child permissions explicitly listed; its cardinality is at
most the total number of listed codenames, with equality whenever the
parent module occurs at most once in the payload and the contributed
strings are pairwise distinct. -/
theorem c2_amended (cfg : SSOConfig) (p : WFPayload)
    (hm : manage_system_name cfg ∉ specParentPerms cfg p)
    (hv : view_system_name cfg ∉ specParentPerms cfg p) :
    collect_module_permissionsE cfg (toRaw p) =
      .ok (specParentPerms cfg p ∪ specChildPerms cfg p) ∧
    (specParentPerms cfg p ∪ specChildPerms cfg p).card ≤ totalCodenames p ∧
    (p.countP (fun e => e.1 == cfg.parentModule) ≤ 1 →
      (specAllStrings cfg p).Nodup →
      (specParentPerms cfg p ∪ specChildPerms cfg p).card = totalCodenames p) := by
  refine ⟨?_, ?_, fun hcount hnodup => ?_⟩
  · simp [collect_module_permissionsE, get_parent_toRaw, collect_child_toRaw, hm, hv]
  · have h1 := Finset.card_le_card (union_subset_allStrings cfg p)
    have h2 := List.toFinset_card_le (specAllStrings cfg p)
    rw [specAllStrings_length cfg p] at h2
    exact le_trans h1 h2
  · rw [union_eq_allStrings cfg p hcount, List.toFinset_card_of_nodup hnodup,
      specAllStrings_length]

/-- C2 amended witness: the concrete payload with parent entry
SYS listing foo and child entry A listing x and y, under the default
configuration; the parent codenames avoid both special names. -/
theorem c2_amended_witness :
    manage_system_name cfgAB ∉ specParentPerms cfgAB [("SYS", ["foo"]), ("A", ["x", "y"])] ∧
    view_system_name cfgAB ∉ specParentPerms cfgAB [("SYS", ["foo"]), ("A", ["x", "y"])] ∧
    (collect_module_permissionsE cfgAB (toRaw [("SYS", ["foo"]), ("A", ["x", "y"])]) =
      .ok (specParentPerms cfgAB [("SYS", ["foo"]), ("A", ["x", "y"])] ∪
        specChildPerms cfgAB [("SYS", ["foo"]), ("A", ["x", "y"])]) ∧
    (specParentPerms cfgAB [("SYS", ["foo"]), ("A", ["x", "y"])] ∪
      specChildPerms cfgAB [("SYS", ["foo"]), ("A", ["x", "y"])]).card ≤
      totalCodenames [("SYS", ["foo"]), ("A", ["x", "y"])] ∧
    (([("SYS", ["foo"]), ("A", ["x", "y"])] : WFPayload).countP
        (fun e => e.1 == cfgAB.parentModule) ≤ 1 →
      (specAllStrings cfgAB [("SYS", ["foo"]), ("A", ["x", "y"])]).Nodup →
      (specParentPerms cfgAB [("SYS", ["foo"]), ("A", ["x", "y"])] ∪
        specChildPerms cfgAB [("SYS", ["foo"]), ("A", ["x", "y"])]).card =
        totalCodenames [("SYS", ["foo"]), ("A", ["x", "y"])])) :=
  ⟨by decide, by decide,
    c2_amended cfgAB [("SYS", ["foo"]), ("A", ["x", "y"])] (by decide) (by decide)⟩
